import Mathlib

/-!
Shallow embedding of shell/browser/api/electron_api_tray.cc: the Tray
binding between the scripting runtime and the native TrayIcon collaborator.
The binding's state is the presence of the native icon (tray_icon_) and the
stored menu reference (menu_); each exposed method is modelled as a pure
function returning the new state, the exact list of TrayIcon calls it
performs, the error it throws (if any) and its return value.  Platform
conditional compilation (OS_WIN / OS_MACOSX / other) is a parameter.
-/

/-- The three platform configurations distinguished by the source's
conditional compilation. -/
inductive Platform
  | win
  | macos
  | linux
deriving DecidableEq

/-- Opaque GUID value (contents irrelevant to the binding). -/
structure UUID where
  val : String
deriving DecidableEq

/-- Opaque handle to a NativeImage (image decoding is a host facility). -/
structure NativeImage where
  id : Nat
deriving DecidableEq

/-- Opaque native menu model, owned by a Menu object. -/
structure MenuModel where
  id : Nat
deriving DecidableEq

/-- A scripted Menu object wrapping a menu model. -/
structure Menu where
  model : MenuModel
deriving DecidableEq

structure Point where
  x : Int
  y : Int
deriving DecidableEq

structure Rect where
  x : Int
  y : Int
  width : Int
  height : Int
deriving DecidableEq

/-- Default-constructed gfx::Rect, returned by getBounds on a destroyed tray. -/
def Rect.empty : Rect := ⟨0, 0, 0, 0⟩

/-- electron::TrayIcon::IconType. -/
inductive IconType
  | none
  | info
  | warning
  | error
  | custom
deriving DecidableEq

/-- gin::Converter for TrayIcon::IconType (FromV8).  The input is the result
of converting the scripted value to a string (Option.none when the value does
not convert); `out` is the out-parameter's prior value, returned unchanged on
failure, exactly as the C++ leaves `*out` unwritten.  Returns (success, out). -/
def IconType.fromV8 (asString : Option String) (out : IconType) : Bool × IconType :=
  match asString with
  | Option.some mode =>
    if mode = "none" then (true, IconType.none)
    else if mode = "info" then (true, IconType.info)
    else if mode = "warning" then (true, IconType.warning)
    else if mode = "error" then (true, IconType.error)
    else if mode = "custom" then (true, IconType.custom)
    else (false, out)
  | Option.none => (false, out)

/-- TrayIcon::BalloonOptions as assembled by Tray::DisplayBalloon.  Fields
the dictionary did not supply keep their default-constructed value, which the
collaborator owns; `Option.none` marks such an untouched field. -/
structure BalloonOptions where
  title : String
  content : String
  icon_type : Option IconType
  large_icon : Option Bool
  no_sound : Option Bool
  respect_quiet_time : Option Bool
  icon : Option NativeImage
deriving DecidableEq

/-- The options dictionary passed to displayBalloon: each field is present
with a convertible value, or not (absent and unconvertible are
indistinguishable to gin Dictionary::Get, which leaves the output unchanged). -/
structure BalloonDict where
  title : Option String
  content : Option String
  iconType : Option IconType
  largeIcon : Option Bool
  noSound : Option Bool
  respectQuietTime : Option Bool
  icon : Option NativeImage
deriving DecidableEq

/-- The calls the binding can make on the native TrayIcon collaborator. -/
inductive TrayCall
  | create (guid : Option UUID)
  | addObserver
  | setImage (img : NativeImage)
  | setPressedImage (img : NativeImage)
  | setToolTip (toolTip : String)
  | setTitle (title : String)
  | getTitle
  | setIgnoreDoubleClickEvents (ignore : Bool)
  | getIgnoreDoubleClickEvents
  | displayBalloon (options : BalloonOptions)
  | removeBalloon
  | focus
  | popUpContextMenu (pos : Point) (menu : Option MenuModel)
  | closeContextMenu
  | setContextMenu (menu : Option MenuModel)
  | getBounds
deriving DecidableEq

/-- An error thrown back into the scripting runtime. -/
inductive Thrown
  | error (msg : String)
  | typeError (msg : String)
deriving DecidableEq

/-- The binding's own state: whether tray_icon_ is gone, and the stored
menu_ reference. -/
structure TrayState where
  destroyed : Bool
  menu : Option Menu
deriving DecidableEq

/-- Result of one exposed method: successor state, TrayIcon calls performed
in order, error thrown, and return value. -/
structure OpResult (α : Type) where
  state : TrayState
  calls : List TrayCall
  thrown : Option Thrown
  ret : α
deriving DecidableEq

/-- Responses of the native TrayIcon to the getter calls the binding
forwards (the collaborator's behaviour, out of scope here). -/
structure NativeEnv where
  title : String
  ignoreDoubleClickEvents : Bool
  bounds : Rect
deriving DecidableEq

/-- Tray::CheckDestroyed: when tray_icon_ is gone, throws and reports
failure. -/
def checkDestroyed (s : TrayState) : Option Thrown :=
  if s.destroyed then Option.some (Thrown.error "Tray is destroyed") else Option.none

/-- Tray::Destroy: resets menu_ and tray_icon_; never throws, no TrayIcon
call. -/
def Tray.destroy (s : TrayState) : OpResult Unit :=
  ⟨{ destroyed := true, menu := Option.none }, [], Option.none, ()⟩

/-- Tray::IsDestroyed: true when tray_icon_ is gone. -/
def Tray.isDestroyed (s : TrayState) : OpResult Bool :=
  ⟨s, [], Option.none, s.destroyed⟩

/-- Tray::SetImage.  On Windows the image is first converted to an HICON by
the NativeImage (a host facility); the call is recorded with the image
handle it was derived from. -/
def Tray.setImage (s : TrayState) (image : NativeImage) : OpResult Unit :=
  match checkDestroyed s with
  | Option.some t => ⟨s, [], Option.some t, ()⟩
  | Option.none => ⟨s, [TrayCall.setImage image], Option.none, ()⟩

/-- Tray::SetPressedImage. -/
def Tray.setPressedImage (s : TrayState) (image : NativeImage) : OpResult Unit :=
  match checkDestroyed s with
  | Option.some t => ⟨s, [], Option.some t, ()⟩
  | Option.none => ⟨s, [TrayCall.setPressedImage image], Option.none, ()⟩

/-- Tray::SetToolTip. -/
def Tray.setToolTip (s : TrayState) (toolTip : String) : OpResult Unit :=
  match checkDestroyed s with
  | Option.some t => ⟨s, [], Option.some t, ()⟩
  | Option.none => ⟨s, [TrayCall.setToolTip toolTip], Option.none, ()⟩

/-- Tray::SetTitle: forwards to TrayIcon::SetTitle only under OS_MACOSX;
elsewhere the body after the destroyed check is empty. -/
def Tray.setTitle (p : Platform) (s : TrayState) (title : String) : OpResult Unit :=
  match checkDestroyed s with
  | Option.some t => ⟨s, [], Option.some t, ()⟩
  | Option.none =>
    ⟨s, if p = Platform.macos then [TrayCall.setTitle title] else [], Option.none, ()⟩

/-- Tray::GetTitle: under OS_MACOSX forwards to TrayIcon::GetTitle;
elsewhere returns the empty string without a TrayIcon call. -/
def Tray.getTitle (p : Platform) (env : NativeEnv) (s : TrayState) : OpResult String :=
  match checkDestroyed s with
  | Option.some t => ⟨s, [], Option.some t, ""⟩
  | Option.none =>
    if p = Platform.macos then ⟨s, [TrayCall.getTitle], Option.none, env.title⟩
    else ⟨s, [], Option.none, ""⟩

/-- Tray::SetIgnoreDoubleClickEvents: forwards only under OS_MACOSX. -/
def Tray.setIgnoreDoubleClickEvents (p : Platform) (s : TrayState) (ignore : Bool) :
    OpResult Unit :=
  match checkDestroyed s with
  | Option.some t => ⟨s, [], Option.some t, ()⟩
  | Option.none =>
    ⟨s, if p = Platform.macos then [TrayCall.setIgnoreDoubleClickEvents ignore] else [],
      Option.none, ()⟩

/-- Tray::GetIgnoreDoubleClickEvents: forwards only under OS_MACOSX,
otherwise returns false. -/
def Tray.getIgnoreDoubleClickEvents (p : Platform) (env : NativeEnv) (s : TrayState) :
    OpResult Bool :=
  match checkDestroyed s with
  | Option.some t => ⟨s, [], Option.some t, false⟩
  | Option.none =>
    if p = Platform.macos then
      ⟨s, [TrayCall.getIgnoreDoubleClickEvents], Option.none, env.ignoreDoubleClickEvents⟩
    else ⟨s, [], Option.none, false⟩

/-- Tray::DisplayBalloon: throws unless both title and content convert;
otherwise performs exactly one DisplayBalloon call with the assembled
BalloonOptions. -/
def Tray.displayBalloon (s : TrayState) (options : BalloonDict) : OpResult Unit :=
  match checkDestroyed s with
  | Option.some t => ⟨s, [], Option.some t, ()⟩
  | Option.none =>
    match options.title, options.content with
    | Option.some title, Option.some content =>
      ⟨s,
        [TrayCall.displayBalloon
          ⟨title, content, options.iconType, options.largeIcon, options.noSound,
            options.respectQuietTime, options.icon⟩],
        Option.none, ()⟩
    | _, _ =>
      ⟨s, [], Option.some (Thrown.error "\x27title\x27 and \x27content\x27 must be defined"), ()⟩

/-- Tray::RemoveBalloon. -/
def Tray.removeBalloon (s : TrayState) : OpResult Unit :=
  match checkDestroyed s with
  | Option.some t => ⟨s, [], Option.some t, ()⟩
  | Option.none => ⟨s, [TrayCall.removeBalloon], Option.none, ()⟩

/-- Tray::Focus. -/
def Tray.focus (s : TrayState) : OpResult Unit :=
  match checkDestroyed s with
  | Option.some t => ⟨s, [], Option.some t, ()⟩
  | Option.none => ⟨s, [TrayCall.focus], Option.none, ()⟩

/-- Tray::PopUpContextMenu: forwards the optional menu argument's model (or
nullptr) and the position (default-constructed Point when absent, applied by
argument marshaling before the call). -/
def Tray.popUpContextMenu (s : TrayState) (menu : Option Menu) (pos : Point) :
    OpResult Unit :=
  match checkDestroyed s with
  | Option.some t => ⟨s, [], Option.some t, ()⟩
  | Option.none =>
    ⟨s, [TrayCall.popUpContextMenu pos (menu.map Menu.model)], Option.none, ()⟩

/-- Tray::CloseContextMenu. -/
def Tray.closeContextMenu (s : TrayState) : OpResult Unit :=
  match checkDestroyed s with
  | Option.some t => ⟨s, [], Option.some t, ()⟩
  | Option.none => ⟨s, [TrayCall.closeContextMenu], Option.none, ()⟩

/-- The argument of setContextMenu, as classified by the source: v8 null, a
value converting to a Menu, or anything else. -/
inductive SetMenuArg
  | nullArg
  | menuArg (m : Menu)
  | other
deriving DecidableEq

/-- Tray::SetContextMenu: null resets menu_ and passes nullptr, a Menu is
stored and its model passed, anything else throws a TypeError. -/
def Tray.setContextMenu (s : TrayState) (arg : SetMenuArg) : OpResult Unit :=
  match checkDestroyed s with
  | Option.some t => ⟨s, [], Option.some t, ()⟩
  | Option.none =>
    match arg with
    | SetMenuArg.nullArg =>
      ⟨{ s with menu := Option.none }, [TrayCall.setContextMenu Option.none],
        Option.none, ()⟩
    | SetMenuArg.menuArg m =>
      ⟨{ s with menu := Option.some m },
        [TrayCall.setContextMenu (Option.some m.model)], Option.none, ()⟩
    | SetMenuArg.other =>
      ⟨s, [], Option.some (Thrown.typeError "Must pass Menu or null"), ()⟩

/-- Tray::GetBounds: forwards to TrayIcon::GetBounds, or returns the empty
rect on a destroyed tray. -/
def Tray.getBounds (env : NativeEnv) (s : TrayState) : OpResult Rect :=
  match checkDestroyed s with
  | Option.some t => ⟨s, [], Option.some t, Rect.empty⟩
  | Option.none => ⟨s, [TrayCall.getBounds], Option.none, env.bounds⟩

/-- Tray::Tray: member initializer runs TrayIcon::Create(guid), then the
body calls this->SetImage(image) (which passes the destroyed check and
forwards) and AddObserver(this). -/
def Tray.construct (guid : Option UUID) (image : NativeImage) :
    TrayState × List TrayCall :=
  let s0 : TrayState := { destroyed := false, menu := Option.none }
  let r := Tray.setImage s0 image
  (r.state, TrayCall.create guid :: (r.calls ++ [TrayCall.addObserver]))

/-- Result of Tray::New (the createTray factory): the handle is empty on the
error paths. -/
structure NewResult where
  handle : Option TrayState
  calls : List TrayCall
  thrown : Option Thrown
deriving DecidableEq

/-- Tray::New: rejects creation before the app is ready; on Windows
additionally rejects extra arguments that yielded no guid; otherwise
constructs a Tray.  `argsLen` is args->Length(). -/
def Tray.new (p : Platform) (ready : Bool) (image : NativeImage)
    (guid : Option UUID) (argsLen : Nat) : NewResult :=
  if ¬ ready then
    ⟨Option.none, [], Option.some (Thrown.error "Cannot create Tray before app is ready")⟩
  else if p = Platform.win ∧ guid = Option.none ∧ argsLen > 1 then
    ⟨Option.none, [], Option.some (Thrown.error "Invalid GUID format")⟩
  else
    let (s, cs) := Tray.construct guid image
    ⟨Option.some s, cs, Option.none⟩

/-- The native observer callbacks delivered to the binding (TrayIconObserver). -/
inductive NativeCallback
  | onClicked (bounds : Rect) (location : Point) (modifiers : Int)
  | onDoubleClicked (bounds : Rect) (modifiers : Int)
  | onRightClicked (bounds : Rect) (modifiers : Int)
  | onBalloonShow
  | onBalloonClicked
  | onBalloonClosed
  | onDrop
  | onDropFiles (files : List String)
  | onDropText (text : String)
  | onMouseEntered (location : Point) (modifiers : Int)
  | onMouseExited (location : Point) (modifiers : Int)
  | onMouseMoved (location : Point) (modifiers : Int)
  | onMouseUp (location : Point) (modifiers : Int)
  | onMouseDown (location : Point) (modifiers : Int)
  | onDragEntered
  | onDragExited
  | onDragEnded
deriving DecidableEq

/-- One argument of a scripted event emission.  `event modifiers` stands for
the object CreateEventFromFlags(modifiers) builds (a host facility). -/
inductive EmitArg
  | event (modifiers : Int)
  | rect (r : Rect)
  | point (pt : Point)
  | strings (xs : List String)
  | str (text : String)
deriving DecidableEq

/-- A scripted event emission: event name and arguments in order. -/
structure Emission where
  name : String
  args : List EmitArg
deriving DecidableEq

/-- The emissions each observer callback body performs (Tray::OnClicked
through Tray::OnDragEnded), in order; every body is a single Emit or
EmitCustomEvent. -/
def Tray.handleCallback : NativeCallback → List Emission
  | NativeCallback.onClicked b l m =>
    [⟨"click", [EmitArg.event m, EmitArg.rect b, EmitArg.point l]⟩]
  | NativeCallback.onDoubleClicked b m =>
    [⟨"double-click", [EmitArg.event m, EmitArg.rect b]⟩]
  | NativeCallback.onRightClicked b m =>
    [⟨"right-click", [EmitArg.event m, EmitArg.rect b]⟩]
  | NativeCallback.onBalloonShow => [⟨"balloon-show", []⟩]
  | NativeCallback.onBalloonClicked => [⟨"balloon-click", []⟩]
  | NativeCallback.onBalloonClosed => [⟨"balloon-closed", []⟩]
  | NativeCallback.onDrop => [⟨"drop", []⟩]
  | NativeCallback.onDropFiles files => [⟨"drop-files", [EmitArg.strings files]⟩]
  | NativeCallback.onDropText text => [⟨"drop-text", [EmitArg.str text]⟩]
  | NativeCallback.onMouseEntered l m =>
    [⟨"mouse-enter", [EmitArg.event m, EmitArg.point l]⟩]
  | NativeCallback.onMouseExited l m =>
    [⟨"mouse-leave", [EmitArg.event m, EmitArg.point l]⟩]
  | NativeCallback.onMouseMoved l m =>
    [⟨"mouse-move", [EmitArg.event m, EmitArg.point l]⟩]
  | NativeCallback.onMouseUp l m =>
    [⟨"mouse-up", [EmitArg.event m, EmitArg.point l]⟩]
  | NativeCallback.onMouseDown l m =>
    [⟨"mouse-down", [EmitArg.event m, EmitArg.point l]⟩]
  | NativeCallback.onDragEntered => [⟨"drag-enter", []⟩]
  | NativeCallback.onDragExited => [⟨"drag-leave", []⟩]
  | NativeCallback.onDragEnded => [⟨"drag-end", []⟩]

/-- The four event categories the spec names for the observer interface
(click / drag / mouse / balloon); drop delivery is part of drag-and-drop. -/
inductive EventCategory
  | click
  | drag
  | mouse
  | balloon
deriving DecidableEq

/-- Whether the first character list leads the second. -/
def listLeads : List Char → List Char → Bool
  | [], _ => true
  | _ :: _, [] => false
  | p :: ps, c :: cs => p = c && listLeads ps cs

/-- Whether the name begins with the given fragment. -/
def nameLeads (frag name : String) : Bool :=
  listLeads frag.data name.data

/-- Classify an emitted event name by its name family: the three click
names, the balloon- names, the mouse- names, and the drag-and-drop names
(drag- and drop...).  Names outside the four families are unclassified. -/
def categoryOfName (name : String) : Option EventCategory :=
  if name = "click" ∨ name = "double-click" ∨ name = "right-click" then
    Option.some EventCategory.click
  else if nameLeads "balloon-" name then Option.some EventCategory.balloon
  else if nameLeads "mouse-" name then Option.some EventCategory.mouse
  else if nameLeads "drag-" name ∨ nameLeads "drop" name then
    Option.some EventCategory.drag
  else Option.none

/-- One invocation of an exposed method, with its scripted arguments (the
method table registered by GetObjectTemplateBuilder). -/
inductive Op
  | destroy
  | isDestroyed
  | setImage (image : NativeImage)
  | setPressedImage (image : NativeImage)
  | setToolTip (toolTip : String)
  | setTitle (title : String)
  | getTitle
  | setIgnoreDoubleClickEvents (ignore : Bool)
  | getIgnoreDoubleClickEvents
  | displayBalloon (options : BalloonDict)
  | removeBalloon
  | focus
  | popUpContextMenu (menu : Option Menu) (pos : Point)
  | closeContextMenu
  | setContextMenu (arg : SetMenuArg)
  | getBounds
deriving DecidableEq

/-- Uniform return value across the exposed methods. -/
inductive RetVal
  | unit
  | bool (b : Bool)
  | str (text : String)
  | rect (r : Rect)
deriving DecidableEq

/-- Lift a unit-returning method result into the uniform shape. -/
def liftUnit (r : OpResult Unit) : OpResult RetVal :=
  ⟨r.state, r.calls, r.thrown, RetVal.unit⟩

/-- Dispatch one exposed method invocation on the binding's state. -/
def Tray.run (p : Platform) (env : NativeEnv) (s : TrayState) : Op → OpResult RetVal
  | Op.destroy => liftUnit (Tray.destroy s)
  | Op.isDestroyed =>
    let r := Tray.isDestroyed s
    ⟨r.state, r.calls, r.thrown, RetVal.bool r.ret⟩
  | Op.setImage image => liftUnit (Tray.setImage s image)
  | Op.setPressedImage image => liftUnit (Tray.setPressedImage s image)
  | Op.setToolTip toolTip => liftUnit (Tray.setToolTip s toolTip)
  | Op.setTitle title => liftUnit (Tray.setTitle p s title)
  | Op.getTitle =>
    let r := Tray.getTitle p env s
    ⟨r.state, r.calls, r.thrown, RetVal.str r.ret⟩
  | Op.setIgnoreDoubleClickEvents ignore =>
    liftUnit (Tray.setIgnoreDoubleClickEvents p s ignore)
  | Op.getIgnoreDoubleClickEvents =>
    let r := Tray.getIgnoreDoubleClickEvents p env s
    ⟨r.state, r.calls, r.thrown, RetVal.bool r.ret⟩
  | Op.displayBalloon options => liftUnit (Tray.displayBalloon s options)
  | Op.removeBalloon => liftUnit (Tray.removeBalloon s)
  | Op.focus => liftUnit (Tray.focus s)
  | Op.popUpContextMenu menu pos => liftUnit (Tray.popUpContextMenu s menu pos)
  | Op.closeContextMenu => liftUnit (Tray.closeContextMenu s)
  | Op.setContextMenu arg => liftUnit (Tray.setContextMenu s arg)
  | Op.getBounds =>
    let r := Tray.getBounds env s
    ⟨r.state, r.calls, r.thrown, RetVal.rect r.ret⟩

/-- The state a freshly constructed Tray is in. -/
def initState : TrayState := { destroyed := false, menu := Option.none }

/-- States reachable from a freshly constructed Tray by any sequence of
exposed method invocations. -/
inductive Reachable (p : Platform) (env : NativeEnv) : TrayState → Prop
  | init : Reachable p env initState
  | step {s : TrayState} (o : Op) :
      Reachable p env s → Reachable p env (Tray.run p env s o).state

/-- Helper: an exposed operation other than destroy never changes whether
the tray is destroyed. -/
theorem run_preserves_destroyed (p : Platform) (env : NativeEnv) (s : TrayState)
    (o : Op) (ho : o ≠ Op.destroy) :
    (Tray.run p env s o).state.destroyed = s.destroyed := by
  cases o <;>
    simp only [Tray.run, liftUnit, Tray.destroy, Tray.isDestroyed, Tray.setImage,
      Tray.setPressedImage, Tray.setToolTip, Tray.setTitle, Tray.getTitle,
      Tray.setIgnoreDoubleClickEvents, Tray.getIgnoreDoubleClickEvents,
      Tray.displayBalloon, Tray.removeBalloon, Tray.focus, Tray.popUpContextMenu,
      Tray.closeContextMenu, Tray.setContextMenu, Tray.getBounds, checkDestroyed] <;>
    (try exact absurd rfl ho) <;>
    (repeat' split) <;> rfl

/-- Claim C10: the IconType converter succeeds exactly on the five strings
"none", "info", "warning", "error", "custom", yielding the matching
IconType, and on failure leaves the out-parameter unchanged. -/
theorem c10_iconType_fromV8 (v : Option String) (out : IconType) :
    ((IconType.fromV8 v out).1 = true ↔
      v = Option.some "none" ∨ v = Option.some "info" ∨ v = Option.some "warning" ∨
        v = Option.some "error" ∨ v = Option.some "custom") ∧
    IconType.fromV8 (Option.some "none") out = (true, IconType.none) ∧
    IconType.fromV8 (Option.some "info") out = (true, IconType.info) ∧
    IconType.fromV8 (Option.some "warning") out = (true, IconType.warning) ∧
    IconType.fromV8 (Option.some "error") out = (true, IconType.error) ∧
    IconType.fromV8 (Option.some "custom") out = (true, IconType.custom) ∧
    ((IconType.fromV8 v out).1 = false → (IconType.fromV8 v out).2 = out) := by
  refine ⟨?_, rfl, rfl, rfl, rfl, rfl, ?_⟩ <;>
    rcases v with _ | s <;> simp only [IconType.fromV8] <;>
    (try split_ifs) <;> simp_all

/-- Witness for C10 at concrete inputs: "warning" converts, "bogus" fails
and leaves the out-parameter at its prior value. -/
theorem c10_witness :
    (IconType.fromV8 (Option.some "warning") IconType.info).1 = true ∧
    (IconType.fromV8 (Option.some "bogus") IconType.info).2 = IconType.info :=
  ⟨(c10_iconType_fromV8 (Option.some "warning") IconType.info).1.mpr
      (Or.inr (Or.inr (Or.inl rfl))),
    (c10_iconType_fromV8 (Option.some "bogus") IconType.info).2.2.2.2.2.2 (by decide)⟩

/-- Claim C2: each native observer callback performs exactly one scripted
emission, with the fixed name and the payload stated. -/
theorem c2_callback_emissions (b : Rect) (l : Point) (m : Int)
    (files : List String) (text : String) :
    Tray.handleCallback (NativeCallback.onClicked b l m) =
      [⟨"click", [EmitArg.event m, EmitArg.rect b, EmitArg.point l]⟩] ∧
    Tray.handleCallback (NativeCallback.onDoubleClicked b m) =
      [⟨"double-click", [EmitArg.event m, EmitArg.rect b]⟩] ∧
    Tray.handleCallback (NativeCallback.onRightClicked b m) =
      [⟨"right-click", [EmitArg.event m, EmitArg.rect b]⟩] ∧
    Tray.handleCallback NativeCallback.onBalloonShow = [⟨"balloon-show", []⟩] ∧
    Tray.handleCallback NativeCallback.onBalloonClicked = [⟨"balloon-click", []⟩] ∧
    Tray.handleCallback NativeCallback.onBalloonClosed = [⟨"balloon-closed", []⟩] ∧
    Tray.handleCallback NativeCallback.onDrop = [⟨"drop", []⟩] ∧
    Tray.handleCallback (NativeCallback.onDropFiles files) =
      [⟨"drop-files", [EmitArg.strings files]⟩] ∧
    Tray.handleCallback (NativeCallback.onDropText text) =
      [⟨"drop-text", [EmitArg.str text]⟩] ∧
    Tray.handleCallback (NativeCallback.onMouseEntered l m) =
      [⟨"mouse-enter", [EmitArg.event m, EmitArg.point l]⟩] ∧
    Tray.handleCallback (NativeCallback.onMouseExited l m) =
      [⟨"mouse-leave", [EmitArg.event m, EmitArg.point l]⟩] ∧
    Tray.handleCallback (NativeCallback.onMouseMoved l m) =
      [⟨"mouse-move", [EmitArg.event m, EmitArg.point l]⟩] ∧
    Tray.handleCallback (NativeCallback.onMouseUp l m) =
      [⟨"mouse-up", [EmitArg.event m, EmitArg.point l]⟩] ∧
    Tray.handleCallback (NativeCallback.onMouseDown l m) =
      [⟨"mouse-down", [EmitArg.event m, EmitArg.point l]⟩] ∧
    Tray.handleCallback NativeCallback.onDragEntered = [⟨"drag-enter", []⟩] ∧
    Tray.handleCallback NativeCallback.onDragExited = [⟨"drag-leave", []⟩] ∧
    Tray.handleCallback NativeCallback.onDragEnded = [⟨"drag-end", []⟩] :=
  ⟨rfl, rfl, rfl, rfl, rfl, rfl, rfl, rfl, rfl, rfl, rfl, rfl, rfl, rfl, rfl, rfl, rfl⟩

/-- Claim C9: every emission a native callback produces carries a name in
one of the four event-name families (click, drag-and-drop, mouse, balloon),
so every translated callback belongs to one of the four categories. -/
theorem c9_callback_categories (cb : NativeCallback) :
    ((Tray.handleCallback cb).all (fun e => (categoryOfName e.name).isSome)) = true ∧
    (Tray.handleCallback cb).length = 1 := by
  cases cb <;> refine ⟨?_, rfl⟩ <;>
    simp only [Tray.handleCallback, List.all_cons, List.all_nil, Bool.and_true] <;>
    decide

/-- Counterexample to claim C1: on a non-macOS platform (here the generic
posix configuration), setTitle on a live tray performs no TrayIcon call at
all, in particular not SetTitle — the forwarding the claim states does not
happen, because the call to TrayIcon::SetTitle is compiled only under
OS_MACOSX. -/
theorem c1_counterexample :
    (Tray.setTitle Platform.linux initState "hello").thrown = Option.none ∧
    (Tray.setTitle Platform.linux initState "hello").calls = [] ∧
    (Tray.setTitle Platform.linux initState "hello").calls ≠
      [TrayCall.setTitle "hello"] := by
  refine ⟨rfl, rfl, ?_⟩
  decide

/-- Claim C1 (amended): when the tray is not destroyed, setImage,
setPressedImage, setToolTip, removeBalloon, focus, popUpContextMenu,
closeContextMenu and getBounds each forward to exactly the corresponding
TrayIcon operation with the caller's arguments and make no other TrayIcon
call; setTitle forwards to TrayIcon::SetTitle exactly on macOS and makes no
TrayIcon call on the other platforms. -/
theorem c1_forwarding (p : Platform) (env : NativeEnv) (s : TrayState)
    (h : s.destroyed = false) (img pimg : NativeImage) (tip title : String)
    (menu : Option Menu) (pos : Point) :
    Tray.setImage s img = ⟨s, [TrayCall.setImage img], Option.none, ()⟩ ∧
    Tray.setPressedImage s pimg =
      ⟨s, [TrayCall.setPressedImage pimg], Option.none, ()⟩ ∧
    Tray.setToolTip s tip = ⟨s, [TrayCall.setToolTip tip], Option.none, ()⟩ ∧
    Tray.setTitle p s title =
      ⟨s, if p = Platform.macos then [TrayCall.setTitle title] else [],
        Option.none, ()⟩ ∧
    Tray.removeBalloon s = ⟨s, [TrayCall.removeBalloon], Option.none, ()⟩ ∧
    Tray.focus s = ⟨s, [TrayCall.focus], Option.none, ()⟩ ∧
    Tray.popUpContextMenu s menu pos =
      ⟨s, [TrayCall.popUpContextMenu pos (menu.map Menu.model)], Option.none, ()⟩ ∧
    Tray.closeContextMenu s = ⟨s, [TrayCall.closeContextMenu], Option.none, ()⟩ ∧
    Tray.getBounds env s = ⟨s, [TrayCall.getBounds], Option.none, env.bounds⟩ := by
  simp [Tray.setImage, Tray.setPressedImage, Tray.setToolTip, Tray.setTitle,
    Tray.removeBalloon, Tray.focus, Tray.popUpContextMenu, Tray.closeContextMenu,
    Tray.getBounds, checkDestroyed, h]

/-- Witness for the amended C1 at concrete inputs. -/
theorem c1_witness :
    Tray.focus initState = ⟨initState, [TrayCall.focus], Option.none, ()⟩ :=
  (c1_forwarding Platform.linux ⟨"", false, Rect.empty⟩ initState rfl ⟨0⟩ ⟨0⟩ "" ""
    Option.none ⟨0, 0⟩).2.2.2.2.2.1

/-- Claim C3: on a destroyed tray every exposed operation other than destroy
and isDestroyed throws "Tray is destroyed", performs no TrayIcon call and
leaves the state unchanged; the getters return their defaults; isDestroyed
returns true; and a second destroy is a no-op that does not throw. -/
theorem c3_destroyed_behaviour (p : Platform) (env : NativeEnv) (s : TrayState)
    (h : s.destroyed = true) (img pimg : NativeImage) (tip title : String)
    (ignore : Bool) (options : BalloonDict) (menu : Option Menu) (pos : Point)
    (arg : SetMenuArg) :
    Tray.setImage s img =
      ⟨s, [], Option.some (Thrown.error "Tray is destroyed"), ()⟩ ∧
    Tray.setPressedImage s pimg =
      ⟨s, [], Option.some (Thrown.error "Tray is destroyed"), ()⟩ ∧
    Tray.setToolTip s tip =
      ⟨s, [], Option.some (Thrown.error "Tray is destroyed"), ()⟩ ∧
    Tray.setTitle p s title =
      ⟨s, [], Option.some (Thrown.error "Tray is destroyed"), ()⟩ ∧
    Tray.getTitle p env s =
      ⟨s, [], Option.some (Thrown.error "Tray is destroyed"), ""⟩ ∧
    Tray.setIgnoreDoubleClickEvents p s ignore =
      ⟨s, [], Option.some (Thrown.error "Tray is destroyed"), ()⟩ ∧
    Tray.getIgnoreDoubleClickEvents p env s =
      ⟨s, [], Option.some (Thrown.error "Tray is destroyed"), false⟩ ∧
    Tray.displayBalloon s options =
      ⟨s, [], Option.some (Thrown.error "Tray is destroyed"), ()⟩ ∧
    Tray.removeBalloon s =
      ⟨s, [], Option.some (Thrown.error "Tray is destroyed"), ()⟩ ∧
    Tray.focus s = ⟨s, [], Option.some (Thrown.error "Tray is destroyed"), ()⟩ ∧
    Tray.popUpContextMenu s menu pos =
      ⟨s, [], Option.some (Thrown.error "Tray is destroyed"), ()⟩ ∧
    Tray.closeContextMenu s =
      ⟨s, [], Option.some (Thrown.error "Tray is destroyed"), ()⟩ ∧
    Tray.setContextMenu s arg =
      ⟨s, [], Option.some (Thrown.error "Tray is destroyed"), ()⟩ ∧
    Tray.getBounds env s =
      ⟨s, [], Option.some (Thrown.error "Tray is destroyed"), Rect.empty⟩ ∧
    Tray.isDestroyed s = ⟨s, [], Option.none, true⟩ ∧
    Tray.destroy s =
      ⟨{ destroyed := true, menu := Option.none }, [], Option.none, ()⟩ ∧
    Tray.destroy (Tray.destroy s).state =
      ⟨(Tray.destroy s).state, [], Option.none, ()⟩ := by
  simp [Tray.setImage, Tray.setPressedImage, Tray.setToolTip, Tray.setTitle,
    Tray.getTitle, Tray.setIgnoreDoubleClickEvents, Tray.getIgnoreDoubleClickEvents,
    Tray.displayBalloon, Tray.removeBalloon, Tray.focus, Tray.popUpContextMenu,
    Tray.closeContextMenu, Tray.setContextMenu, Tray.getBounds, Tray.isDestroyed,
    Tray.destroy, checkDestroyed, h]

/-- Witness for C3 at a concrete destroyed state. -/
theorem c3_witness :
    Tray.setToolTip { destroyed := true, menu := Option.none } "tip" =
      ⟨{ destroyed := true, menu := Option.none }, [],
        Option.some (Thrown.error "Tray is destroyed"), ()⟩ :=
  (c3_destroyed_behaviour Platform.linux ⟨"", false, Rect.empty⟩
    { destroyed := true, menu := Option.none } rfl ⟨0⟩ ⟨0⟩ "tip" "" false
    ⟨Option.none, Option.none, Option.none, Option.none, Option.none, Option.none,
      Option.none⟩
    Option.none ⟨0, 0⟩ SetMenuArg.nullArg).2.2.1

/-- Claim C4: on a live tray, displayBalloon throws (and performs no
DisplayBalloon call) exactly when the dictionary lacks a convertible title
or content; otherwise it performs exactly one DisplayBalloon call with the
BalloonOptions assembled from the dictionary's fields. -/
theorem c4_displayBalloon (s : TrayState) (h : s.destroyed = false)
    (options : BalloonDict) :
    ((Tray.displayBalloon s options).thrown =
        Option.some (Thrown.error "\x27title\x27 and \x27content\x27 must be defined") ∧
      (Tray.displayBalloon s options).calls = [] ↔
        options.title = Option.none ∨ options.content = Option.none) ∧
    (∀ title content, options.title = Option.some title →
      options.content = Option.some content →
      Tray.displayBalloon s options =
        ⟨s, [TrayCall.displayBalloon
              ⟨title, content, options.iconType, options.largeIcon, options.noSound,
                options.respectQuietTime, options.icon⟩],
          Option.none, ()⟩) := by
  rcases options with ⟨t, c, it, li, ns, rq, ic⟩
  rcases t with _ | t <;> rcases c with _ | c <;>
    simp [Tray.displayBalloon, checkDestroyed, h]

/-- Witness for C4: a dictionary lacking both fields throws, one with both
fields performs the DisplayBalloon call. -/
theorem c4_witness :
    (Tray.displayBalloon initState
        ⟨Option.none, Option.none, Option.none, Option.none, Option.none,
          Option.none, Option.none⟩).thrown =
      Option.some (Thrown.error "\x27title\x27 and \x27content\x27 must be defined") ∧
    Tray.displayBalloon initState
        ⟨Option.some "t", Option.some "c", Option.none, Option.none, Option.none,
          Option.none, Option.none⟩ =
      ⟨initState,
        [TrayCall.displayBalloon
          ⟨"t", "c", Option.none, Option.none, Option.none, Option.none, Option.none⟩],
        Option.none, ()⟩ :=
  ⟨((c4_displayBalloon initState rfl
      ⟨Option.none, Option.none, Option.none, Option.none, Option.none, Option.none,
        Option.none⟩).1.mpr (Or.inl rfl)).1,
    (c4_displayBalloon initState rfl
      ⟨Option.some "t", Option.some "c", Option.none, Option.none, Option.none,
        Option.none, Option.none⟩).2 "t" "c" rfl rfl⟩

/-- Claim C5: on a live tray, setContextMenu with null clears the stored
menu and passes nullptr to TrayIcon::SetContextMenu; with a Menu it stores
the menu and passes its model; with anything else it throws the TypeError
"Must pass Menu or null", makes no TrayIcon call and leaves the stored menu
unchanged. -/
theorem c5_setContextMenu (s : TrayState) (h : s.destroyed = false) (m : Menu) :
    Tray.setContextMenu s SetMenuArg.nullArg =
      ⟨{ destroyed := false, menu := Option.none },
        [TrayCall.setContextMenu Option.none], Option.none, ()⟩ ∧
    Tray.setContextMenu s (SetMenuArg.menuArg m) =
      ⟨{ destroyed := false, menu := Option.some m },
        [TrayCall.setContextMenu (Option.some m.model)], Option.none, ()⟩ ∧
    Tray.setContextMenu s SetMenuArg.other =
      ⟨s, [], Option.some (Thrown.typeError "Must pass Menu or null"), ()⟩ := by
  rcases s with ⟨d, mn⟩
  simp only at h
  subst h
  simp [Tray.setContextMenu, checkDestroyed]

/-- Witness for C5 at concrete inputs. -/
theorem c5_witness :
    Tray.setContextMenu initState (SetMenuArg.menuArg ⟨⟨7⟩⟩) =
      ⟨{ destroyed := false, menu := Option.some ⟨⟨7⟩⟩ },
        [TrayCall.setContextMenu (Option.some ⟨7⟩)], Option.none, ()⟩ :=
  (c5_setContextMenu initState rfl ⟨⟨7⟩⟩).2.1

/-- Claim C6: construction performs exactly TrayIcon::Create(guid), then
SetImage with the initial image on the created icon, then AddObserver; the
constructed tray is not destroyed; and no exposed operation other than
destroy changes whether the tray is destroyed. -/
theorem c6_construct (guid : Option UUID) (image : NativeImage) (p : Platform)
    (env : NativeEnv) (s : TrayState) (o : Op) (ho : o ≠ Op.destroy) :
    Tray.construct guid image =
      (initState,
        [TrayCall.create guid, TrayCall.setImage image, TrayCall.addObserver]) ∧
    (Tray.isDestroyed initState).ret = false ∧
    (Tray.run p env s o).state.destroyed = s.destroyed :=
  ⟨rfl, rfl, run_preserves_destroyed p env s o ho⟩

/-- Witness for C6 at concrete inputs. -/
theorem c6_witness :
    Tray.construct Option.none ⟨3⟩ =
      (initState,
        [TrayCall.create Option.none, TrayCall.setImage ⟨3⟩, TrayCall.addObserver]) :=
  (c6_construct Option.none ⟨3⟩ Platform.linux ⟨"", false, Rect.empty⟩ initState
    Op.focus (by decide)).1

/-- Claim C7: Tray::New throws "Cannot create Tray before app is ready" and
returns an empty handle whenever the browser is not ready, with no TrayIcon
call; on Windows it throws "Invalid GUID format" and returns an empty handle
when more than one argument was passed but no guid was converted; in every
other case it constructs and returns a new Tray. -/
theorem c7_new (p : Platform) (image : NativeImage) (guid : Option UUID)
    (argsLen : Nat) :
    Tray.new p false image guid argsLen =
      ⟨Option.none, [],
        Option.some (Thrown.error "Cannot create Tray before app is ready")⟩ ∧
    (guid = Option.none → argsLen > 1 →
      Tray.new Platform.win true image guid argsLen =
        ⟨Option.none, [], Option.some (Thrown.error "Invalid GUID format")⟩) ∧
    (¬ (p = Platform.win ∧ guid = Option.none ∧ argsLen > 1) →
      Tray.new p true image guid argsLen =
        ⟨Option.some initState,
          [TrayCall.create guid, TrayCall.setImage image, TrayCall.addObserver],
          Option.none⟩) := by
  refine ⟨rfl, ?_, ?_⟩
  · intro hg ha
    simp [Tray.new, hg, ha]
  · intro hcond
    simp [Tray.new, hcond, Tray.construct, Tray.setImage, checkDestroyed, initState]

/-- Witness for C7: the not-ready rejection, the Windows guid rejection and
a successful construction, all at concrete inputs. -/
theorem c7_witness :
    Tray.new Platform.win true ⟨1⟩ Option.none 2 =
      ⟨Option.none, [], Option.some (Thrown.error "Invalid GUID format")⟩ ∧
    Tray.new Platform.linux true ⟨1⟩ Option.none 2 =
      ⟨Option.some initState,
        [TrayCall.create Option.none, TrayCall.setImage ⟨1⟩, TrayCall.addObserver],
        Option.none⟩ :=
  ⟨(c7_new Platform.win ⟨1⟩ Option.none 2).2.1 rfl (by decide),
    (c7_new Platform.linux ⟨1⟩ Option.none 2).2.2 (by decide)⟩

/-- Counterexample to claim C8: an operation can fail precisely because of
the operations that preceded it.  focus on a fresh tray does not throw, but
after the exposed operation destroy has run — reaching a reachable state —
the same focus invocation throws "Tray is destroyed". -/
theorem c8_counterexample :
    (Tray.run Platform.linux ⟨"", false, Rect.empty⟩ initState Op.focus).thrown =
      Option.none ∧
    (Tray.run Platform.linux ⟨"", false, Rect.empty⟩
        (Tray.run Platform.linux ⟨"", false, Rect.empty⟩ initState
          Op.destroy).state Op.focus).thrown =
      Option.some (Thrown.error "Tray is destroyed") ∧
    Reachable Platform.linux ⟨"", false, Rect.empty⟩
      (Tray.run Platform.linux ⟨"", false, Rect.empty⟩ initState Op.destroy).state :=
  ⟨rfl, rfl, Reachable.step Op.destroy Reachable.init⟩

/-- Claim C8 (amended): every exposed operation is defined in every
reachable state; as long as the tray has not been destroyed, whether an
operation throws does not depend on the operations that preceded it (it
matches the fresh state); once destroy has run, every operation other than
destroy and isDestroyed throws "Tray is destroyed". -/
theorem c8_no_protocol (p : Platform) (env : NativeEnv) (s : TrayState)
    (hr : Reachable p env s) (o : Op) :
    (s.destroyed = false →
      (Tray.run p env s o).thrown = (Tray.run p env initState o).thrown) ∧
    (s.destroyed = true → o ≠ Op.destroy → o ≠ Op.isDestroyed →
      (Tray.run p env s o).thrown =
        Option.some (Thrown.error "Tray is destroyed")) := by
  constructor
  · intro h
    cases o <;>
      simp [Tray.run, liftUnit, Tray.destroy, Tray.isDestroyed, Tray.setImage,
        Tray.setPressedImage, Tray.setToolTip, Tray.setTitle, Tray.getTitle,
        Tray.setIgnoreDoubleClickEvents, Tray.getIgnoreDoubleClickEvents,
        Tray.displayBalloon, Tray.removeBalloon, Tray.focus, Tray.popUpContextMenu,
        Tray.closeContextMenu, Tray.setContextMenu, Tray.getBounds, checkDestroyed,
        h, initState] <;>
      (repeat' split) <;> simp_all
  · intro h h1 h2
    cases o <;>
      simp [Tray.run, liftUnit, Tray.destroy, Tray.isDestroyed, Tray.setImage,
        Tray.setPressedImage, Tray.setToolTip, Tray.setTitle, Tray.getTitle,
        Tray.setIgnoreDoubleClickEvents, Tray.getIgnoreDoubleClickEvents,
        Tray.displayBalloon, Tray.removeBalloon, Tray.focus, Tray.popUpContextMenu,
        Tray.closeContextMenu, Tray.setContextMenu, Tray.getBounds, checkDestroyed,
        h] <;>
      simp_all

/-- Witness for the amended C8 at a concrete reachable state: storing a
context menu first does not change whether a later focus throws. -/
theorem c8_witness :
    (Tray.run Platform.linux ⟨"", false, Rect.empty⟩
        (Tray.run Platform.linux ⟨"", false, Rect.empty⟩ initState
          (Op.setContextMenu (SetMenuArg.menuArg ⟨⟨1⟩⟩))).state Op.focus).thrown =
      (Tray.run Platform.linux ⟨"", false, Rect.empty⟩ initState Op.focus).thrown :=
  (c8_no_protocol Platform.linux ⟨"", false, Rect.empty⟩
    (Tray.run Platform.linux ⟨"", false, Rect.empty⟩ initState
      (Op.setContextMenu (SetMenuArg.menuArg ⟨⟨1⟩⟩))).state
    (Reachable.step (Op.setContextMenu (SetMenuArg.menuArg ⟨⟨1⟩⟩)) Reachable.init)
    Op.focus).1 rfl
